import Mathlib

/-!
Verification of the retrieval core of this repository against its
natural-language specification.

The embedding below translates, from the Python sources:

* `src/retrieval/store.py` — class `VectorStore` wrapping a flat
  inner-product index (`faiss.IndexFlatIP`).  Vector components are
  modelled as rationals (`ℚ`): the source computes with `float32`, and
  every concrete scenario used here involves only small integer values,
  on which `float32` arithmetic is exact.  Payloads are an opaque type
  parameter `α`, mirroring the `list[dict]` of payload dictionaries.
* `src/retrieval/embed.py` — function `embed`, with the outbound HTTP
  call modelled as an explicit request trace plus a response oracle.
* `src/backend/app.py` — function `call_llm`, with the remote chat call
  modelled as an explicit outcome value.
* `src/retrieval/prompt.py` — function `build_user_prompt`.
-/

namespace RGPT

/-- Errors surfaced by the store operations.  The Python source raises
library exceptions rather than a dedicated class: `emptyAdd` models
the `ValueError` raised inside the faiss add wrapper when unpacking
the shape of the 1-D array `np.array([])` built from an empty batch
(the statement `n, d = x.shape` fails on a shape-(0,) array);
`addDimMismatch` models the `ValueError` from `np.array` on a ragged
batch or the `AssertionError` from the faiss wrapper when the batch
width differs from the index dimension; `queryDimMismatch` models the
faiss wrapper assertion `d == self.d` on the query; `invalidTopK`
models the faiss exception raised by `FAISS_THROW_IF_NOT(k > 0)`
inside `IndexFlat::search`; `payloadIndexError` models a Python
`IndexError` from `self.payloads[idx]`. -/
inductive StoreError where
  | emptyAdd
  | addDimMismatch
  | queryDimMismatch
  | invalidTopK
  | payloadIndexError
deriving DecidableEq, Repr

/-- State of `VectorStore` (src/retrieval/store.py, lines 9-12): `dim`
is the dimension the faiss index was created with, `vectors` the rows
stored in the index (in insertion order), `payloads` the parallel
payload list. -/
structure VectorStore (α : Type) where
  dim : Nat
  vectors : List (List ℚ)
  payloads : List α
deriving DecidableEq, Repr

/-- Constructor `VectorStore.__init__(dim)` (store.py line 10-12):
fresh inner-product index of dimension `dim`, empty payload list. -/
def VectorStore.create {α : Type} (dim : Nat) : VectorStore α :=
  { dim := dim, vectors := [], payloads := [] }

/-- Method `VectorStore.add` (store.py lines 14-17).  The source runs
`np.array(embeddings).astype("float32")` and `self.index.add(arr)`,
then `self.payloads.extend(payloads)`.  When the batch is empty,
`np.array([])` is a 1-D array of shape (0,), and the faiss add
wrapper raises `ValueError` unpacking `n, d = x.shape`.  When some
embedding row does not have length `dim`, either `np.array` (ragged
batch) or the faiss wrapper assertion (uniform batch of the wrong
width) raises.  In both cases the raise happens before
`payloads.extend`, so neither list is modified; these are the error
branches.  The source performs NO check that `embeddings` and
`payloads` have the same length: when the batch is non-empty and all
rows have width `dim`, both lists are appended unconditionally. -/
def VectorStore.add {α : Type} (s : VectorStore α) (embeddings : List (List ℚ))
    (payloads : List α) : Except StoreError (VectorStore α) :=
  if embeddings = [] then
    Except.error StoreError.emptyAdd
  else if ∀ v ∈ embeddings, v.length = s.dim then
    Except.ok { s with vectors := s.vectors ++ embeddings,
                       payloads := s.payloads ++ payloads }
  else
    Except.error StoreError.addDimMismatch

/-- Inner product of two vectors: the similarity score used by
`faiss.IndexFlatIP` (sum of componentwise products). -/
def innerProd (q v : List ℚ) : ℚ :=
  (List.zipWith (fun a b => a * b) q v).sum

/-- Scored pairs for a query: the inner product of the query with each
stored row, tagged with the insertion index of that row.  This models
the exhaustive scan `IndexFlatIP` performs over its `ntotal` rows. -/
def scoredPairs {α : Type} (s : VectorStore α) (q : List ℚ) : List (ℚ × Nat) :=
  (List.range s.vectors.length).map
    (fun i => (innerProd q (s.vectors.getD i []), i))

/-- Ranking relation used by the index when collecting the best `k`
results: higher score first, and on equal scores the lower insertion
index first (faiss resolves ties deterministically towards the smaller
row id). -/
def rankRel (a b : ℚ × Nat) : Prop :=
  b.1 < a.1 ∨ (a.1 = b.1 ∧ a.2 ≤ b.2)

instance : DecidableRel rankRel := fun _ _ =>
  inferInstanceAs (Decidable (_ ∨ _))

instance : IsTotal (ℚ × Nat) rankRel := by
  constructor
  intro a b
  rcases lt_trichotomy a.1 b.1 with h | h | h
  · exact Or.inr (Or.inl h)
  · rcases Nat.le_total a.2 b.2 with h2 | h2
    · exact Or.inl (Or.inr ⟨h, h2⟩)
    · exact Or.inr (Or.inr ⟨h.symm, h2⟩)
  · exact Or.inl (Or.inl h)

instance : IsTrans (ℚ × Nat) rankRel := by
  constructor
  intro a b c hab hbc
  rcases hab with h1 | ⟨e1, l1⟩
  · rcases hbc with h2 | ⟨e2, _⟩
    · exact Or.inl (lt_trans h2 h1)
    · exact Or.inl (e2 ▸ h1)
  · rcases hbc with h2 | ⟨e2, l2⟩
    · exact Or.inl (e1 ▸ h2)
    · exact Or.inr ⟨e1.trans e2, le_trans l1 l2⟩

/-- Stored rows ranked for a query: sorted by descending score, ties
towards the lower insertion index.  `VectorStore.search` reads off the
first `top_k` entries of this list; this models the top-k selection of
`IndexFlat::search` (which, when `k` exceeds `ntotal`, pads the output
with label `-1`, entries the Python caller then skips — equivalent to
truncating this list at `min k ntotal`). -/
def rankedPairs {α : Type} (s : VectorStore α) (q : List ℚ) : List (ℚ × Nat) :=
  List.insertionSort rankRel (scoredPairs s q)

/-- The result loop of `VectorStore.search` (store.py lines 22-26):
for each returned (score, idx) pair it appends
`(float(score), self.payloads[idx])`; an out-of-range index would raise
`IndexError` (modelled as the error branch). -/
def lookupResults {α : Type} (payloads : List α) :
    List (ℚ × Nat) → Except StoreError (List (ℚ × α))
  | [] => Except.ok []
  | (sc, i) :: rest =>
    match payloads.get? i with
    | none => Except.error StoreError.payloadIndexError
    | some p =>
      match lookupResults payloads rest with
      | Except.ok tail => Except.ok ((sc, p) :: tail)
      | Except.error e => Except.error e

/-- Method `VectorStore.search` (store.py lines 19-27).  The faiss
Python wrapper first asserts that the query width equals the index
dimension (`assert d == self.d`); then `IndexFlat::search` raises
unless `top_k > 0`; otherwise the scores are the inner products of the
query with every stored row and the best `top_k` are returned in
descending score order, ties broken towards the lower insertion
index. -/
def VectorStore.search {α : Type} (s : VectorStore α) (query : List ℚ)
    (topK : Int) : Except StoreError (List (ℚ × α)) :=
  if query.length = s.dim then
    if 0 < topK then
      lookupResults s.payloads ((rankedPairs s query).take topK.toNat)
    else
      Except.error StoreError.invalidTopK
  else
    Except.error StoreError.queryDimMismatch

/-! Embedding client, from `src/retrieval/embed.py`.  The module reads
`EMBED_MODEL`, `EMBED_API_URL` and `EMBED_API_KEY` from the
environment (`os.environ.get` yields `None` for an unset variable,
modelled as `Option`); `embed` validates them and then performs exactly
one `httpx.post`.  The outbound call is modelled as an explicit list of
issued requests paired with the computed outcome, with the remote
service abstracted as an oracle from request to response.  The
`resp.raise_for_status()` of embed.py line 28 raises for every
response whose status is not 2xx (httpx raises unless `is_success`,
that is 200-299). -/

/-- Environment configuration picked up at module load
(embed.py lines 7-9). -/
structure EmbedEnv where
  embedModel : String
  embedApiUrl : Option String
  embedApiKey : Option String

/-- Python truthiness test `not x` for an optional string: true when
the variable is unset (`None`) or set to the empty string. -/
def optFalsy : Option String → Bool
  | none => true
  | some s => s.isEmpty

/-- One outbound HTTP POST as issued by `embed` (embed.py lines 18-23):
target URL, bearer credential, and the JSON body fields
`model` and `input`. -/
structure EmbedRequest where
  url : String
  bearer : String
  model : String
  input : List String
deriving DecidableEq, Repr

/-- Shape of the JSON body of the embedding response, as the three
branches of embed.py lines 31-38 distinguish it: a `data` key holding
objects with an `embedding` field, an `embeddings` key holding the
vectors directly, or neither (only some list of other keys). -/
inductive EmbedBody where
  | withData (embs : List (List ℚ))
  | withEmbeddings (embs : List (List ℚ))
  | otherKeys (keys : List String)
deriving DecidableEq, Repr

/-- HTTP response: status code and parsed JSON body. -/
structure EmbedResponse where
  status : Nat
  body : EmbedBody
deriving DecidableEq, Repr

/-- Errors raised by `embed`: `runtimeConfig` models the
`RuntimeError` raised when `EMBED_API_URL` or `EMBED_API_KEY` is unset
or empty (the `ConfigurationError` of the specification taxonomy);
`authFailed` the `RuntimeError` on status 401; `httpStatus` the
`httpx.HTTPStatusError` from `resp.raise_for_status()`;
`unexpectedFormat` the `ValueError` on an unrecognised body shape. -/
inductive EmbedError where
  | runtimeConfig (msg : String)
  | authFailed
  | httpStatus (code : Nat)
  | unexpectedFormat (keys : List String)
deriving DecidableEq, Repr

/-- Function `embed(texts)` (embed.py lines 12-38).  Returns the list
of outbound requests actually issued together with the result: when
either connection parameter is falsy the function raises before any
network call, so the request trace is empty; otherwise exactly one
request is posted and the response is dispatched on status and body
shape. -/
def embed (env : EmbedEnv) (texts : List String)
    (net : EmbedRequest → EmbedResponse) :
    List EmbedRequest × Except EmbedError (List (List ℚ)) :=
  if optFalsy env.embedApiUrl || optFalsy env.embedApiKey then
    ([], Except.error (EmbedError.runtimeConfig
      "Set EMBED_API_URL and EMBED_API_KEY for embeddings."))
  else
    let req : EmbedRequest :=
      { url := env.embedApiUrl.getD ""
        bearer := env.embedApiKey.getD ""
        model := env.embedModel
        input := texts }
    let resp := net req
    ([req],
      if resp.status = 401 then
        Except.error EmbedError.authFailed
      else if ¬(200 ≤ resp.status ∧ resp.status < 300) then
        Except.error (EmbedError.httpStatus resp.status)
      else
        match resp.body with
        | EmbedBody.withData embs => Except.ok embs
        | EmbedBody.withEmbeddings embs => Except.ok embs
        | EmbedBody.otherKeys keys =>
          Except.error (EmbedError.unexpectedFormat keys))

/-! Backend `call_llm`, from `src/backend/app.py` lines 173-287.  The
function validates the LLM URL and key, posts the chat request, and
handles the response inside a `try`/`except`.  On the success path the
`try` body completes (`resp.raise_for_status()` passes and
`data = resp.json()` binds), none of the `except` handlers run, and
the function body contains no statement after the `try` statement:
the content-extraction and JSON-parsing block (lines 244-283) is
located inside the `except httpx.HTTPStatusError` handler AFTER that
handler raises unconditionally on line 242, so it can never execute.
The network interaction is modelled as an explicit outcome value; the
URL-cleaning preamble and the request payload are not needed by the
claims settled here and are left out of the model. -/

/-- One choice of the parsed chat-completion JSON, with the fields the
dead extraction block would read. -/
structure ChatChoice where
  content : String
  finishReason : Option String
deriving DecidableEq, Repr

/-- Parsed JSON of a successful chat response (`data = resp.json()`). -/
structure ChatData where
  choices : List ChatChoice
deriving DecidableEq, Repr

/-- The four-field mapping the dead extraction block would have
produced (keys `direct`, `step_by_step`, `intuitive`, `shortcut`). -/
structure LlmAnswer where
  direct : String
  stepByStep : String
  intuitive : String
  shortcut : String
deriving DecidableEq, Repr

/-- FastAPI `HTTPException(status, detail)`. -/
structure HTTPExc where
  status : Nat
  detail : String
deriving DecidableEq, Repr

/-- Outcome of the `httpx.post` + `raise_for_status` + `json()`
sequence in the `try` body of `call_llm` (app.py lines 229-232). -/
inductive LlmHttpOutcome where
  | connectError (msg : String)
  | statusError (status : Nat) (errDetail : String)
  | success (data : ChatData)

/-- Function `call_llm(prompt)` response handling (app.py lines
229-287), given the outcome of the single chat POST.  A connection
error and an HTTP status error are re-raised as `HTTPException`
(lines 233-242); on success the `try` body completes and — because the
extraction block of lines 244-283 sits after the unconditional raise
of line 242 inside the status-error handler — no further statement of
the function body executes, so Python falls off the end of the
function and returns `None`. -/
def call_llm (o : LlmHttpOutcome) : Except HTTPExc (Option LlmAnswer) := do
  let _data : ChatData ←
    (match o with
     | LlmHttpOutcome.connectError msg =>
       Except.error
         { status := 500
           detail := "Failed to connect to LLM API. Check LLM_API_URL is correct. Error: " ++ msg }
     | LlmHttpOutcome.statusError st errDetail =>
       Except.error
         { status := st
           detail := "LLM API error: " ++ toString st ++ " - " ++ errDetail }
     | LlmHttpOutcome.success data => Except.ok data)
  -- The Python function body ends with the try statement; nothing runs
  -- after it on the success path, and the function returns None.
  pure none

/-! Prompt construction, from `src/retrieval/prompt.py`, function
`build_user_prompt` (lines 36-190).  Context records are payload
dictionaries; the fields the function reads are modelled as optional
strings (`dict.get` with a default).  Python `len` and slicing on
`str` count Unicode code points, as `String.length` and `String.take`
do. -/

/-- The nested `solutions` mapping of a context record, as read by
`solutions.get(...)` (prompt.py lines 51-61). -/
structure CtxSolutions where
  direct : Option String
  step_by_step : Option String
  intuitive : Option String
  shortcut : Option String

/-- A retrieved context record, as read by `ctx.get(...)`
(prompt.py lines 48-61).  The `id` field is rendered through an
f-string in the source; it is modelled as the rendered text. -/
structure Ctx where
  id : Option String
  question : Option String
  solutions : Option CtxSolutions

/-- Reads a solution field: the source looks up the solutions mapping
with an empty-mapping default and then the field with an empty-string
default. -/
def getSol (f : CtxSolutions → Option String) (c : Ctx) : String :=
  match c.solutions with
  | none => ""
  | some s => (f s).getD ""

/-- The rendered `ctx_entry` for one context (prompt.py lines 51-62):
the step-by-step text is truncated at 1200 code points with a marker
appended, and the other fields are sliced to fixed lengths. -/
def ctx_entry (ctx : Ctx) : String :=
  let sbs := getSol CtxSolutions.step_by_step ctx
  let sbs :=
    if sbs.length > 1200 then sbs.take 1200 ++ "...[truncated for brevity]"
    else sbs
  "Example " ++ ctx.id.getD "unknown" ++ ":\n" ++
  "Q: " ++ (ctx.question.getD "").take 200 ++ "\n" ++
  "Direct: " ++ (getSol CtxSolutions.direct ctx).take 150 ++ "\n" ++
  "Steps: " ++ sbs ++ "\n" ++
  "Intuitive: " ++ (getSol CtxSolutions.intuitive ctx).take 200 ++ "\n" ++
  "Shortcut: " ++ (getSol CtxSolutions.shortcut ctx).take 200 ++ "\n"

/-- The selection loop of `build_user_prompt` (prompt.py lines 44-69):
walks the contexts in order keeping a running total of rendered
lengths; before appending an entry it breaks out of the loop when the
entry would push the total past `max_context_length` AND at least one
entry has already been kept (`and ctx_txt`), so the first entry is
appended unconditionally.  `acc` holds the kept entries in reverse. -/
def selectContexts (maxLen : Nat) : List Ctx → List String → Nat → List String
  | [], acc, _ => acc.reverse
  | ctx :: rest, acc, total =>
    let e := ctx_entry ctx
    if total + e.length > maxLen ∧ acc ≠ [] then acc.reverse
    else selectContexts maxLen rest (e :: acc) (total + e.length)

/-- Python `sep.join(parts)`. -/
def joinSep (sep : String) : List String → String
  | [] => ""
  | [x] => x
  | x :: y :: rest => x ++ sep ++ joinSep sep (y :: rest)

/-- The fixed instruction text of the returned prompt before the
reference examples (prompt.py lines 74-175). -/
def promptHeader : String :=
  "Solve this CAT DILR problem using Gaurav Kapoor's teaching methodology.\n" ++
  "CRITICAL REQUIREMENT: The step_by_step solution MUST follow this EXACT structure with 4-5 progressive tables:\n\n" ++
  "STRUCTURE (MUST FOLLOW - DO NOT JUMP TO CONCLUSIONS):\n\n" ++
  "📊 TABLE 1: DATA EXTRACTION (Fill ALL given information)\n" ++
  "- Extract EVERY piece of information directly stated in the question\n" ++
  "- Fill in ALL cells that can be filled from the question text itself\n" ++
  "- This table should have the MAXIMUM possible information from the question\n" ++
  "- Do NOT leave cells empty if the question explicitly states their values\n" ++
  "- Then write detailed explanation: List every fact, constraint, and data point extracted\n\n" ++
  "EXPLANATION: [3-5 sentences]\n" ++
  "Explain: What information was directly given? What constraints exist? What relationships are stated?\n" ++
  "Be thorough - list every single piece of information from the question.\n\n" ++
  "📊 TABLE 2: APPLY DIRECT CONSTRAINTS (First logical deductions)\n" ++
  "- Use the constraints from the question to fill in more cells\n" ++
  "- Apply the most straightforward constraints first (e.g., 'never', 'always', 'did not train during X-Y')\n" ++
  "- Fill in cells that can be directly deduced from constraints\n" ++
  "- This table should show MORE filled cells than Table 1\n" ++
  "- Show clear progression - more information than Table 1\n\n" ++
  "EXPLANATION: [3-5 sentences]\n" ++
  "Explain: Which specific constraint did you apply? How did it help fill these cells? What is the reasoning?\n" ++
  "Be specific: 'Constraint X states Y, therefore cell Z must be...'\n\n" ++
  "📊 TABLE 3: PROGRESSIVE DEDUCTION (Use relationships and logic)\n" ++
  "- Use relationships between entities (e.g., 'were never Gurubhai', 'were Gurubhai for X years')\n" ++
  "- Apply logical deductions based on what you know so far\n" ++
  "- Fill in more cells using the information from Tables 1 and 2\n" ++
  "- This table should show SIGNIFICANTLY MORE filled cells than Table 2\n" ++
  "- Show clear progression - build on previous tables\n\n" ++
  "EXPLANATION: [3-5 sentences]\n" ++
  "Explain: What relationships did you use? How did you combine information from previous steps?\n" ++
  "Show your thinking: 'Since A and B were never Gurubhai, and we know A is with Guru X in year Y, therefore...'\n\n" ++
  "📊 TABLE 4: INTERMEDIATE DEDUCTIONS (Continue building)\n" ++
  "- Continue applying logic and constraints\n" ++
  "- Use elimination and logical reasoning\n" ++
  "- Fill in more cells based on what cannot be true\n" ++
  "- This table should show MORE progress than Table 3\n" ++
  "- Do NOT jump to final answer - show intermediate state\n\n" ++
  "EXPLANATION: [3-5 sentences]\n" ++
  "Explain: What additional deductions did you make? What possibilities did you eliminate?\n" ++
  "Show your reasoning process step-by-step.\n\n" ++
  "📊 TABLE 5: FINAL SOLUTION (Complete the table)\n" ++
  "- Fill in remaining cells using all available information\n" ++
  "- Verify all constraints are satisfied\n" ++
  "- This should be the COMPLETE table with all answers\n" ++
  "- Show the final state with all cells filled\n\n" ++
  "FINAL EXPLANATION: [3-5 sentences]\n" ++
  "Summarize: How did you reach the final solution? Verify all constraints. Present the answers to the questions.\n\n" ++
  "CRITICAL RULES (MUST FOLLOW):\n" ++
  "- Each table MUST be clearly labeled with '📊 TABLE X: [NAME]'\n" ++
  "- Each table MUST show CLEAR PROGRESSION - more cells filled than the previous table\n" ++
  "- Table 1: Fill ALL given information from the question (do not leave cells empty if question states them)\n" ++
  "- Tables 2-5: Each must show MORE filled cells than the previous one\n" ++
  "- DO NOT jump to conclusions - build up incrementally\n" ++
  "- DO NOT repeat the same table - each must show visible progress\n" ++
  "- BEFORE showing any table, chart, or diagram, you MUST provide context explaining:\n" ++
  "  * What information you're about to organize\n" ++
  "  * Why you're creating this visual representation\n" ++
  "  * What you expect to learn from it\n" ++
  "- After EACH table, you MUST write 'EXPLANATION:' followed by detailed textual explanations (3-5 sentences minimum)\n" ++
  "- Explanations must explain: WHAT logic was applied, WHY it was applied, HOW it led to filling specific cells\n" ++
  "- Be specific in explanations: mention exact constraints, relationships, and reasoning\n" ++
  "- NEVER show a final table or chart without first explaining the reasoning that led to it\n" ++
  "- If you show a pie chart or bar chart, explain what it represents and why it's useful BEFORE showing it\n" ++
  "- Tables must use proper ASCII format with | and +--- characters\n" ++
  "- DO NOT use Python arrays, dicts, JSON, or any code format like: tables: [\x7b'table': '...'\x7d]\n" ++
  "- DO NOT use any format other than plain ASCII text with | and + characters\n" ++
  "- Write tables directly as plain text, NOT as code or data structures\n" ++
  "- The explanations are MANDATORY - they teach students the reasoning process\n" ++
  "- Add blank lines between tables and explanations for readability\n" ++
  "- Use all 5 tables effectively - do not rush to the final answer\n" ++
  "- REMEMBER: Students need to understand the THINKING PROCESS, not just see the final result\n\n" ++
  "EXAMPLE FORMAT (write EXACTLY like this, as plain text):\n" ++
  "📊 TABLE 1: DATA EXTRACTION\n" ++
  "\n" ++
  "+------+------+------+\n" ++
  "|      | Col1 | Col2 |\n" ++
  "+------+------+------+\n" ++
  "| Row1 |  A   |  ?   |  <- Fill ALL given info\n" ++
  "| Row2 |  ?   |  B   |  <- Fill ALL given info\n" ++
  "+------+------+------+\n" ++
  "\n" ++
  "EXPLANATION: From the question, we extract the following information: [List EVERY fact]. Specifically, the question states that Row1-Col1 is A and Row2-Col2 is B. We also note constraints: [list all constraints]. This initial extraction gives us the foundation.\n\n" ++
  "📊 TABLE 2: APPLY DIRECT CONSTRAINTS\n" ++
  "\n" ++
  "+------+------+------+\n" ++
  "|      | Col1 | Col2 |\n" ++
  "+------+------+------+\n" ++
  "| Row1 |  A   |  X   |  <- More filled than Table 1\n" ++
  "| Row2 |  Y   |  B   |  <- More filled than Table 1\n" ++
  "+------+------+------+\n" ++
  "\n" ++
  "EXPLANATION: We apply constraint 1 which states [specific constraint]. This tells us that Row1-Col2 cannot be [value], so it must be X. Similarly, constraint 2 states [specific constraint], which means Row2-Col1 must be Y. This is the first logical deduction based on direct constraints.\n\n" ++
  "📊 TABLE 3: PROGRESSIVE DEDUCTION\n" ++
  "\n" ++
  "+------+------+------+\n" ++
  "|      | Col1 | Col2 |\n" ++
  "+------+------+------+\n" ++
  "| Row1 |  A   |  X   |\n" ++
  "| Row2 |  Y   |  B   |\n" ++
  "| Row3 |  Z   |  W   |  <- Even more filled\n" ++
  "+------+------+------+\n" ++
  "\n" ++
  "EXPLANATION: Now we use relationships. Since Row1 and Row2 have relationship R, and we know Row1-Col2 is X, we can deduce that Row3-Col1 must be Z because [specific reasoning]. This builds on the information from previous tables.\n\n"

/-- The fixed instruction text of the returned prompt after the
question (prompt.py lines 178-189). -/
def promptTail : String :=
  "CRITICAL: Return your response as JSON with keys: direct, step_by_step, intuitive, shortcut\n" ++
  "For step_by_step, write it as a PLAIN TEXT STRING containing:\n" ++
  "- 4-5 ASCII tables (using | and +--- characters, NOT arrays or dicts)\n" ++
  "- Explanations between each table (plain text, NOT code)\n" ++
  "- Do NOT use Python syntax like tables: [...] or \x7b'table': '...'\x7d\n" ++
  "- Write tables directly as ASCII art in the text, like the examples above\n" ++
  "The step_by_step field should be a single string containing all tables and explanations.\n" ++
  "Example of CORRECT format for step_by_step:\n" ++
  "\"📊 TABLE 1: DATA EXTRACTION\\n\\n+------+------+\\n| Col1 | Col2 |\\n+------+------+\\n|  ?   |  ?   |\\n+------+------+\\n\\nEXPLANATION: ...\"\n" ++
  "Example of WRONG format (DO NOT USE):\n" ++
  "\"tables: [\x7b\\\"table\\\": \\\"+------+\\n| Col1 |\\n+------+\\\"\x7d]\"\n" ++
  "Now solve this problem following the EXACT structure above."

/-- Function `build_user_prompt(question, contexts, max_context_length)`
(prompt.py lines 36-190; the source default for `max_context_length`
is 5000).  Joins the selected context entries with a separator and
embeds them, with the question, into the fixed instruction template. -/
def build_user_prompt (question : String) (contexts : List Ctx)
    (max_context_length : Nat) : String :=
  let ctx_joined := joinSep "\n---\n" (selectContexts max_context_length contexts [] 0)
  promptHeader ++
  ("Reference examples:\n" ++ ctx_joined ++ "\n\n") ++
  ("Question:\n" ++ question ++ "\n\n") ++
  promptTail

/-! Shared lemmas about the store model. -/

theorem lookupResults_ok_eq {α : Type} (ps : List α) (dflt : α) :
    ∀ l : List (ℚ × Nat), (∀ p ∈ l, p.2 < ps.length) →
      lookupResults ps l = Except.ok (l.map (fun p => (p.1, ps.getD p.2 dflt)))
  | [], _ => rfl
  | (sc, i) :: rest, h => by
    have hi : i < ps.length := h (sc, i) (List.mem_cons_self _ _)
    have hr := lookupResults_ok_eq ps dflt rest
      (fun p hp => h p (List.mem_cons_of_mem _ hp))
    simp only [lookupResults, List.get?_eq_getElem?, List.getElem?_eq_getElem hi,
      hr, List.map_cons, List.getD_eq_getElem ps dflt hi]

theorem scoredPairs_length {α : Type} (s : VectorStore α) (q : List ℚ) :
    (scoredPairs s q).length = s.vectors.length := by
  simp [scoredPairs]

theorem mem_scoredPairs {α : Type} {s : VectorStore α} {q : List ℚ}
    {x : ℚ × Nat} :
    x ∈ scoredPairs s q ↔
      ∃ i, i < s.vectors.length ∧ x = (innerProd q (s.vectors.getD i []), i) := by
  simp only [scoredPairs, List.mem_map, List.mem_range]
  constructor
  · rintro ⟨i, hi, rfl⟩; exact ⟨i, hi, rfl⟩
  · rintro ⟨i, hi, rfl⟩; exact ⟨i, hi, rfl⟩

theorem scoredPairs_nodup {α : Type} (s : VectorStore α) (q : List ℚ) :
    (scoredPairs s q).Nodup := by
  refine List.Nodup.map ?_ (List.nodup_range _)
  intro a b hab
  exact congrArg Prod.snd hab

theorem rankedPairs_perm {α : Type} (s : VectorStore α) (q : List ℚ) :
    (rankedPairs s q).Perm (scoredPairs s q) :=
  List.perm_insertionSort rankRel (scoredPairs s q)

theorem rankedPairs_sorted {α : Type} (s : VectorStore α) (q : List ℚ) :
    List.Sorted rankRel (rankedPairs s q) :=
  List.sorted_insertionSort rankRel (scoredPairs s q)

theorem rankedPairs_length {α : Type} (s : VectorStore α) (q : List ℚ) :
    (rankedPairs s q).length = s.vectors.length :=
  (rankedPairs_perm s q).length_eq.trans (scoredPairs_length s q)

theorem rankedPairs_nodup {α : Type} (s : VectorStore α) (q : List ℚ) :
    (rankedPairs s q).Nodup :=
  ((rankedPairs_perm s q).nodup_iff).mpr (scoredPairs_nodup s q)

theorem mem_rankedPairs {α : Type} {s : VectorStore α} {q : List ℚ}
    {x : ℚ × Nat} :
    x ∈ rankedPairs s q ↔
      ∃ i, i < s.vectors.length ∧ x = (innerProd q (s.vectors.getD i []), i) :=
  ((rankedPairs_perm s q).mem_iff).trans mem_scoredPairs

theorem rankedPairs_snd_lt {α : Type} {s : VectorStore α} {q : List ℚ}
    {x : ℚ × Nat} (hx : x ∈ rankedPairs s q) : x.2 < s.vectors.length := by
  obtain ⟨i, hi, rfl⟩ := mem_rankedPairs.mp hx
  exact hi

/-- A successful search is the ranked prefix with payloads looked up
positionally; `dflt` is an arbitrary default never actually used. -/
theorem search_ok_eq {α : Type} (s : VectorStore α) (q : List ℚ) (k : Int)
    (hq : q.length = s.dim) (hk : 0 < k)
    (hbal : s.vectors.length ≤ s.payloads.length) (dflt : α) :
    VectorStore.search s q k =
      Except.ok (((rankedPairs s q).take k.toNat).map
        (fun p => (p.1, s.payloads.getD p.2 dflt))) := by
  unfold VectorStore.search
  rw [if_pos hq, if_pos hk]
  exact lookupResults_ok_eq s.payloads dflt _
    (fun p hp => lt_of_lt_of_le (rankedPairs_snd_lt (List.mem_of_mem_take hp)) hbal)

/-! Claims. -/

/-- C1: Search scores each stored vector by the inner product with the
query (no normalization is applied by the store), and among stored
vectors with equal scores the one with the lower insertion index is
ranked first; in particular, for a store built by adding the dimension
4 vectors [1,0,0,0], [0,1,0,0], [1,1,0,0] with payloads "a", "b", "c"
(standing for the dictionaries with those id fields), searching
[1,0,0,0] with top_k 2 returns exactly [(1.0, "a"), (1.0, "c")].  The
ranking `search` truncates is stated explicitly: it lists the inner
product of the query with every stored vector, and positionally
earlier entries with equal scores carry the lower insertion index. -/
theorem c1_search_inner_product_tiebreak {α : Type} (s : VectorStore α)
    (v : List ℚ) :
    ((rankedPairs s v).length = s.vectors.length
      ∧ (∀ x ∈ rankedPairs s v,
          x.2 < s.vectors.length ∧ x.1 = innerProd v (s.vectors.getD x.2 [])))
    ∧ (∀ i j : Nat, j < (rankedPairs s v).length → i < j →
        ((rankedPairs s v).getD i (0, 0)).1 = ((rankedPairs s v).getD j (0, 0)).1 →
        ((rankedPairs s v).getD i (0, 0)).2 < ((rankedPairs s v).getD j (0, 0)).2)
    ∧ (∀ s0 : VectorStore String,
        VectorStore.add (VectorStore.create 4)
          [[1,0,0,0],[0,1,0,0],[1,1,0,0]] ["a","b","c"] = Except.ok s0 →
        VectorStore.search s0 [1,0,0,0] 2 = Except.ok [(1,"a"),(1,"c")]) := by
  refine ⟨⟨rankedPairs_length s v, ?_⟩, ?_, ?_⟩
  · intro x hx
    obtain ⟨i, hi, rfl⟩ := mem_rankedPairs.mp hx
    exact ⟨hi, rfl⟩
  · intro i j hj hij heq
    have hi : i < (rankedPairs s v).length := lt_trans hij hj
    rw [List.getD_eq_get _ _ hi, List.getD_eq_get _ _ hj] at heq ⊢
    have hrel : rankRel ((rankedPairs s v).get ⟨i, hi⟩) ((rankedPairs s v).get ⟨j, hj⟩) :=
      (rankedPairs_sorted s v).rel_get_of_lt (show (⟨i, hi⟩ : Fin _) < ⟨j, hj⟩ from hij)
    rcases hrel with hlt | ⟨_, hle⟩
    · rw [heq] at hlt
      exact absurd hlt (lt_irrefl _)
    · refine lt_of_le_of_ne hle (fun hsnd => ?_)
      have hget : ((rankedPairs s v).get ⟨i, hi⟩) = ((rankedPairs s v).get ⟨j, hj⟩) :=
        Prod.ext heq hsnd
      have : (⟨i, hi⟩ : Fin _) = ⟨j, hj⟩ :=
        ((rankedPairs_nodup s v).get_inj_iff).mp hget
      exact absurd (Fin.mk.inj this) (Nat.ne_of_lt hij)
  · intro s0 h
    have hadd : VectorStore.add (VectorStore.create 4 (α := String))
        [[1,0,0,0],[0,1,0,0],[1,1,0,0]] ["a","b","c"]
        = Except.ok (⟨4, [[1,0,0,0],[0,1,0,0],[1,1,0,0]], ["a","b","c"]⟩ : VectorStore String) := by
      rw [VectorStore.add, if_neg (by decide), if_pos (by decide)]
      rfl
    rw [hadd] at h
    obtain rfl := (Except.ok.inj h).symm
    norm_num [VectorStore.search, rankedPairs, scoredPairs, innerProd, lookupResults,
      List.insertionSort, List.orderedInsert, rankRel,
      show List.range 3 = [0,1,2] from rfl]

/-- Witness for C1 at the concrete three-vector store: the ranking for
query [1,0,0,0] puts insertion index 0 before insertion index 2 (the
two score-1 entries), and the search returns [(1,"a"),(1,"c")]. -/
theorem c1_search_inner_product_tiebreak_witness :
    ((rankedPairs (⟨4, [[1,0,0,0],[0,1,0,0],[1,1,0,0]], ["a","b","c"]⟩ : VectorStore String)
        [1,0,0,0]).getD 0 (0, 0)).2
      < ((rankedPairs (⟨4, [[1,0,0,0],[0,1,0,0],[1,1,0,0]], ["a","b","c"]⟩ : VectorStore String)
        [1,0,0,0]).getD 1 (0, 0)).2
    ∧ VectorStore.search (⟨4, [[1,0,0,0],[0,1,0,0],[1,1,0,0]], ["a","b","c"]⟩ : VectorStore String)
        [1,0,0,0] 2 = Except.ok [(1,"a"),(1,"c")] := by
  have hrk : rankedPairs (⟨4, [[1,0,0,0],[0,1,0,0],[1,1,0,0]], ["a","b","c"]⟩ : VectorStore String)
      [1,0,0,0] = [(1,0),(1,2),(0,1)] := by
    norm_num [rankedPairs, scoredPairs, innerProd,
      List.insertionSort, List.orderedInsert, rankRel,
      show List.range 3 = [0,1,2] from rfl]
  constructor
  · exact (c1_search_inner_product_tiebreak
      (⟨4, [[1,0,0,0],[0,1,0,0],[1,1,0,0]], ["a","b","c"]⟩ : VectorStore String)
      [1,0,0,0]).2.1 0 1 (by rw [hrk]; norm_num) (by norm_num) (by rw [hrk]; rfl)
  · exact (c1_search_inner_product_tiebreak
      (⟨4, [[1,0,0,0],[0,1,0,0],[1,1,0,0]], ["a","b","c"]⟩ : VectorStore String)
      [1,0,0,0]).2.2
      (⟨4, [[1,0,0,0],[0,1,0,0],[1,1,0,0]], ["a","b","c"]⟩ : VectorStore String)
      (by rw [VectorStore.add, if_neg (by decide), if_pos (by decide)]; rfl)

/-- C2: A successful Search(query, top_k) with top_k > 0 returns pairs
sorted by non-increasing score, of length exactly min(top_k, store
size) — hence at most top_k and at most the number of stored entries;
an empty store yields the empty sequence; top_k beyond the store size
returns all entries; and every search on a freshly created store
returns the empty sequence.  The store is assumed consistent (at least
as many payloads as vectors), as every store built by matching adds
is. -/
theorem c2_search_sorted_bounded {α : Type} (s : VectorStore α) (q : List ℚ)
    (k : Int) (hq : q.length = s.dim) (hk : 0 < k)
    (hbal : s.vectors.length ≤ s.payloads.length) :
    (∃ res, VectorStore.search s q k = Except.ok res
      ∧ List.Pairwise (fun a b : ℚ × α => b.1 ≤ a.1) res
      ∧ res.length = min k.toNat s.vectors.length
      ∧ (s.vectors = [] → res = [])
      ∧ (s.vectors.length ≤ k.toNat → res.length = s.vectors.length))
    ∧ (∀ (dim : Nat) (q2 : List ℚ) (k2 : Int), q2.length = dim → 0 < k2 →
        VectorStore.search (VectorStore.create (α := α) dim) q2 k2 = Except.ok []) := by
  constructor
  · rcases hp : s.payloads with _ | ⟨p0, ps0⟩
    · have hv0 : s.vectors.length = 0 := by
        rw [hp] at hbal
        simpa using hbal
      have hrk : rankedPairs s q = [] := by
        refine List.length_eq_zero.mp ?_
        rw [rankedPairs_length, hv0]
      refine ⟨[], ?_, List.Pairwise.nil, ?_, fun _ => rfl, fun _ => by simp [hv0]⟩
      · unfold VectorStore.search
        rw [if_pos hq, if_pos hk, hrk, List.take_nil]
        rfl
      · simp [hv0]
    · have heq := search_ok_eq s q k hq hk hbal p0
      refine ⟨_, heq, ?_, ?_, ?_, ?_⟩
      · refine List.pairwise_map.mpr ?_
        refine List.Pairwise.imp ?_
          ((rankedPairs_sorted s q).sublist (List.take_sublist _ _))
        intro a b hab
        rcases hab with hlt | ⟨he, _⟩
        · exact le_of_lt hlt
        · exact le_of_eq he.symm
      · rw [List.length_map, List.length_take, rankedPairs_length]
      · intro hv
        have hv0 : s.vectors.length = 0 := by rw [hv]; rfl
        refine List.length_eq_zero.mp ?_
        rw [List.length_map, List.length_take, rankedPairs_length, hv0, Nat.min_zero]
      · intro hle
        rw [List.length_map, List.length_take, rankedPairs_length,
          Nat.min_eq_right hle]
  · intro dim q2 k2 hq2 hk2
    have hrk : rankedPairs (VectorStore.create (α := α) dim) q2 = [] := by
      simp [rankedPairs, scoredPairs, VectorStore.create, List.insertionSort]
    unfold VectorStore.search
    rw [if_pos (by simpa [VectorStore.create] using hq2), if_pos hk2, hrk,
      List.take_nil]
    rfl

/-- Witness for C2 at the three-entry dimension-4 store with query
[1,0,0,0] and top_k 2. -/
theorem c2_search_sorted_bounded_witness :
    (∃ res, VectorStore.search
        (⟨4, [[1,0,0,0],[0,1,0,0],[1,1,0,0]], ["a","b","c"]⟩ : VectorStore String)
        [1,0,0,0] 2 = Except.ok res
      ∧ List.Pairwise (fun a b : ℚ × String => b.1 ≤ a.1) res
      ∧ res.length = min (Int.toNat 2)
          (⟨4, [[1,0,0,0],[0,1,0,0],[1,1,0,0]], ["a","b","c"]⟩ : VectorStore String).vectors.length
      ∧ ((⟨4, [[1,0,0,0],[0,1,0,0],[1,1,0,0]], ["a","b","c"]⟩ : VectorStore String).vectors = []
          → res = [])
      ∧ ((⟨4, [[1,0,0,0],[0,1,0,0],[1,1,0,0]], ["a","b","c"]⟩ : VectorStore String).vectors.length
          ≤ Int.toNat 2 → res.length =
          (⟨4, [[1,0,0,0],[0,1,0,0],[1,1,0,0]], ["a","b","c"]⟩ : VectorStore String).vectors.length))
    ∧ (∀ (dim : Nat) (q2 : List ℚ) (k2 : Int), q2.length = dim → 0 < k2 →
        VectorStore.search (VectorStore.create (α := String) dim) q2 k2 = Except.ok []) :=
  c2_search_sorted_bounded
    (⟨4, [[1,0,0,0],[0,1,0,0],[1,1,0,0]], ["a","b","c"]⟩ : VectorStore String)
    [1,0,0,0] 2 (by decide) (by decide) (by decide)

theorem add_ok_elim {α : Type} {s s2 : VectorStore α} {es : List (List ℚ)}
    {ps : List α} (h : VectorStore.add s es ps = Except.ok s2) :
    (∀ v ∈ es, v.length = s.dim)
    ∧ s2 = { s with vectors := s.vectors ++ es, payloads := s.payloads ++ ps } := by
  by_cases hne : es = []
  · rw [VectorStore.add, if_pos hne] at h
    exact Except.noConfusion h
  · by_cases hc : ∀ v ∈ es, v.length = s.dim
    · rw [VectorStore.add, if_neg hne, if_pos hc] at h
      exact ⟨hc, (Except.ok.inj h).symm⟩
    · rw [VectorStore.add, if_neg hne, if_neg hc] at h
      exact Except.noConfusion h

/-- C3 counterexample: Add with mismatched lengths (1 vector, 2
payloads) does NOT fail — it succeeds and appends both lists, leaving
the store with more payloads than vectors, contradicting the claim
that such a call raises InvalidArgumentError and leaves the store
unchanged. -/
theorem c3_add_mismatched_lengths_cex :
    VectorStore.add (VectorStore.create 2) [[1,0]] ["p","q"]
      = Except.ok (⟨2, [[1,0]], ["p","q"]⟩ : VectorStore String)
    ∧ (⟨2, [[1,0]], ["p","q"]⟩ : VectorStore String).payloads.length
      ≠ (⟨2, [[1,0]], ["p","q"]⟩ : VectorStore String).vectors.length := by
  constructor
  · rw [VectorStore.add, if_neg (by decide), if_pos (by decide)]
    rfl
  · decide

/-- C3 amended: Add fails and leaves the store unchanged only for the
error paths of the underlying array/index layer — a batch containing a
vector of the wrong dimension (the dimension error, the
InvalidArgumentError of the spec taxonomy) or an empty batch (the
ValueError from the faiss wrapper unpacking the 1-D empty array);
mismatched lengths as such are never checked: a non-empty batch whose
vectors all have the store dimension succeeds and appends all vectors
and all payloads even when the two batch lengths differ. -/
theorem c3_add_validation_amended {α : Type} (s : VectorStore α)
    (es : List (List ℚ)) (ps : List α) :
    ((∃ v ∈ es, v.length ≠ s.dim) →
      VectorStore.add s es ps = Except.error StoreError.addDimMismatch)
    ∧ (es = [] →
      VectorStore.add s es ps = Except.error StoreError.emptyAdd)
    ∧ (es ≠ [] → (∀ v ∈ es, v.length = s.dim) →
      VectorStore.add s es ps =
        Except.ok { s with vectors := s.vectors ++ es,
                           payloads := s.payloads ++ ps }) := by
  refine ⟨?_, ?_, ?_⟩
  · rintro ⟨v, hv, hne⟩
    rw [VectorStore.add, if_neg (List.ne_nil_of_mem hv),
      if_neg (fun hall => hne (hall v hv))]
  · intro h
    rw [VectorStore.add, if_pos h]
  · intro hne hall
    rw [VectorStore.add, if_neg hne, if_pos hall]

/-- Witness for C3 amended: a wrong-dimension batch fails, the empty
batch fails, and a right-dimension non-empty batch with mismatched
payload count succeeds. -/
theorem c3_add_validation_amended_witness :
    VectorStore.add (VectorStore.create 2) [[1,2,3]] ["p"]
      = Except.error StoreError.addDimMismatch
    ∧ VectorStore.add (VectorStore.create 2) ([] : List (List ℚ)) (["p"] : List String)
      = Except.error StoreError.emptyAdd
    ∧ VectorStore.add (VectorStore.create 2) [[1,2]] ["p","q"]
      = Except.ok (⟨2, [[1,2]], ["p","q"]⟩ : VectorStore String) :=
  ⟨(c3_add_validation_amended (VectorStore.create 2) [[1,2,3]] ["p"]).1
      ⟨[1,2,3], List.mem_cons_self _ _, by decide⟩,
    (c3_add_validation_amended (VectorStore.create 2) ([] : List (List ℚ))
      (["p"] : List String)).2.1 rfl,
    (c3_add_validation_amended (VectorStore.create 2) [[1,2]] ["p","q"]).2.2
      (by decide) (by decide)⟩

/-- C4: Search with top_k less than or equal to zero (in particular
zero) on a query of the store dimension fails with the invalid-k error
(the InvalidArgumentError of the spec taxonomy, raised by the index
library). -/
theorem c4_search_nonpositive_topk {α : Type} (s : VectorStore α)
    (q : List ℚ) (k : Int) (hq : q.length = s.dim) (hk : k ≤ 0) :
    VectorStore.search s q k = Except.error StoreError.invalidTopK := by
  unfold VectorStore.search
  rw [if_pos hq, if_neg (not_lt.mpr hk)]

/-- Witness for C4 at the three-entry store with top_k = 0. -/
theorem c4_search_nonpositive_topk_witness :
    VectorStore.search
      (⟨4, [[1,0,0,0],[0,1,0,0],[1,1,0,0]], ["a","b","c"]⟩ : VectorStore String)
      [1,0,0,0] 0 = Except.error StoreError.invalidTopK :=
  c4_search_nonpositive_topk _ _ 0 (by decide) (by decide)

/-- Stores reachable from Create(dim) by a sequence of Add calls that
returned successfully (no restriction relating the two batch
lengths, matching the absence of such a check in the source). -/
inductive ReachedByAdds {α : Type} (dim : Nat) : VectorStore α → Prop where
  | create : ReachedByAdds dim (VectorStore.create dim)
  | add (s s2 : VectorStore α) (es : List (List ℚ)) (ps : List α) :
      ReachedByAdds dim s → VectorStore.add s es ps = Except.ok s2 →
      ReachedByAdds dim s2

/-- Stores reachable from Create(dim) when every Add call passes a
vector batch and a payload batch of equal length. -/
inductive ReachedByMatchedAdds {α : Type} (dim : Nat) : VectorStore α → Prop where
  | create : ReachedByMatchedAdds dim (VectorStore.create dim)
  | add (s s2 : VectorStore α) (es : List (List ℚ)) (ps : List α) :
      ReachedByMatchedAdds dim s → es.length = ps.length →
      VectorStore.add s es ps = Except.ok s2 →
      ReachedByMatchedAdds dim s2

theorem lookupResults_mem {α : Type} {ps : List α} :
    ∀ {l : List (ℚ × Nat)} {res : List (ℚ × α)},
      lookupResults ps l = Except.ok res →
      ∀ r ∈ res, ∃ p ∈ l, ∃ hp : p.2 < ps.length, r = (p.1, ps.get ⟨p.2, hp⟩)
  | [], res, h, r, hr => by
    obtain rfl := (Except.ok.inj h).symm
    cases hr
  | (sc, i) :: rest, res, h, r, hr => by
    rw [lookupResults] at h
    cases hget : ps.get? i with
    | none => rw [hget] at h; exact Except.noConfusion h
    | some p =>
      rw [hget] at h
      cases htail : lookupResults ps rest with
      | error e => rw [htail] at h; exact Except.noConfusion h
      | ok tail =>
        rw [htail] at h
        obtain rfl := (Except.ok.inj h).symm
        obtain ⟨hi, hgp⟩ := List.get?_eq_some.mp hget
        rcases List.mem_cons.mp hr with rfl | hr2
        · exact ⟨(sc, i), List.mem_cons_self _ _, hi, by rw [hgp]⟩
        · obtain ⟨p2, hp2, hlt, heq⟩ := lookupResults_mem htail r hr2
          exact ⟨p2, List.mem_cons_of_mem _ hp2, hlt, heq⟩

theorem search_ok_elim {α : Type} {s : VectorStore α} {q : List ℚ} {k : Int}
    {res : List (ℚ × α)} (h : VectorStore.search s q k = Except.ok res) :
    lookupResults s.payloads ((rankedPairs s q).take k.toNat) = Except.ok res := by
  by_cases h1 : q.length = s.dim
  · by_cases h2 : 0 < k
    · rw [VectorStore.search, if_pos h1, if_pos h2] at h
      exact h
    · rw [VectorStore.search, if_pos h1, if_neg h2] at h
      exact Except.noConfusion h
  · rw [VectorStore.search, if_neg h1] at h
    exact Except.noConfusion h

/-- Every pair a successful search returns is, for a single index i,
the inner-product score of stored vector i paired with stored payload
i: score and payload travel together positionally. -/
theorem search_result_correspondence {α : Type} (s : VectorStore α) :
    ∀ (q : List ℚ) (k : Int) (res : List (ℚ × α)),
      VectorStore.search s q k = Except.ok res →
      ∀ r ∈ res, ∃ i, ∃ hv : i < s.vectors.length, ∃ hp : i < s.payloads.length,
        r = (innerProd q (s.vectors.get ⟨i, hv⟩), s.payloads.get ⟨i, hp⟩) := by
  intro q k res h r hr
  obtain ⟨p, hpl, hp2, rfl⟩ := lookupResults_mem (search_ok_elim h) r hr
  obtain ⟨i, hi, rfl⟩ := mem_rankedPairs.mp (List.mem_of_mem_take hpl)
  refine ⟨i, hi, hp2, ?_⟩
  rw [List.getD_eq_get _ _ hi]

theorem reachedMatched_core {α : Type} {dim : Nat} {s : VectorStore α}
    (h : ReachedByMatchedAdds dim s) :
    s.dim = dim ∧ s.vectors.length = s.payloads.length
      ∧ ∀ v ∈ s.vectors, v.length = dim := by
  induction h with
  | create =>
    refine ⟨rfl, rfl, ?_⟩
    intro v hv
    cases hv
  | add s s2 es ps hr hlen hok ih =>
    obtain ⟨hall, rfl⟩ := add_ok_elim hok
    refine ⟨ih.1, ?_, ?_⟩
    · simp only [List.length_append, ih.2.1, hlen]
    · intro v hv
      rcases List.mem_append.mp hv with h1 | h2
      · exact ih.2.2 v h1
      · rw [hall v h2, ih.1]

/-- C5 counterexample: the store holding 1 vector and 2 payloads is
reached from Create(2) by a single (successful) Add call, yet its
vector count differs from its payload count, contradicting the claimed
invariant for stores reached by arbitrary Add sequences. -/
theorem c5_count_invariant_cex :
    ReachedByAdds 2 (⟨2, [[1,0]], ["p","q"]⟩ : VectorStore String)
    ∧ (⟨2, [[1,0]], ["p","q"]⟩ : VectorStore String).vectors.length
      ≠ (⟨2, [[1,0]], ["p","q"]⟩ : VectorStore String).payloads.length := by
  constructor
  · refine ReachedByAdds.add _ _ [[1,0]] ["p","q"] ReachedByAdds.create ?_
    rw [VectorStore.add, if_neg (by decide), if_pos (by decide)]
    rfl
  · decide

/-- C5 amended: for every store reached from Create(dim) by Add calls
whose vector and payload batches have EQUAL lengths, the number of
stored vectors equals the number of stored payloads, every stored
vector has dimension dim, the store dimension is the creation
dimension, and every (score, payload) pair a successful Search returns
is the score of vector i paired with the payload inserted together
with vector i, for one index i.  (Without the equal-length restriction
on each Add the count equality fails, see the counterexample.) -/
theorem c5_matched_adds_invariant {α : Type} {dim : Nat} {s : VectorStore α}
    (h : ReachedByMatchedAdds dim s) :
    s.dim = dim
    ∧ s.vectors.length = s.payloads.length
    ∧ (∀ v ∈ s.vectors, v.length = dim)
    ∧ (∀ (q : List ℚ) (k : Int) (res : List (ℚ × α)),
        VectorStore.search s q k = Except.ok res →
        ∀ r ∈ res, ∃ i, ∃ hv : i < s.vectors.length, ∃ hp : i < s.payloads.length,
          r = (innerProd q (s.vectors.get ⟨i, hv⟩), s.payloads.get ⟨i, hp⟩)) := by
  obtain ⟨h1, h2, h3⟩ := reachedMatched_core h
  exact ⟨h1, h2, h3, search_result_correspondence s⟩

/-- Witness for C5 amended, at the store reached from Create(2) by one
matched Add of vector [1,0] with payload "p". -/
theorem c5_matched_adds_invariant_witness :
    (⟨2, [[1,0]], ["p"]⟩ : VectorStore String).dim = 2
    ∧ (⟨2, [[1,0]], ["p"]⟩ : VectorStore String).vectors.length
      = (⟨2, [[1,0]], ["p"]⟩ : VectorStore String).payloads.length
    ∧ (∀ v ∈ (⟨2, [[1,0]], ["p"]⟩ : VectorStore String).vectors, v.length = 2)
    ∧ (∀ (q : List ℚ) (k : Int) (res : List (ℚ × String)),
        VectorStore.search (⟨2, [[1,0]], ["p"]⟩ : VectorStore String) q k = Except.ok res →
        ∀ r ∈ res, ∃ i,
          ∃ hv : i < (⟨2, [[1,0]], ["p"]⟩ : VectorStore String).vectors.length,
          ∃ hp : i < (⟨2, [[1,0]], ["p"]⟩ : VectorStore String).payloads.length,
          r = (innerProd q ((⟨2, [[1,0]], ["p"]⟩ : VectorStore String).vectors.get ⟨i, hv⟩),
            (⟨2, [[1,0]], ["p"]⟩ : VectorStore String).payloads.get ⟨i, hp⟩)) :=
  c5_matched_adds_invariant
    (ReachedByMatchedAdds.add _ _ [[1,0]] ["p"] ReachedByMatchedAdds.create rfl
      (by rw [VectorStore.add, if_neg (by decide), if_pos (by decide)]; rfl))

/-- C6 counterexample: Add([], []) satisfies the claimed preconditions
of a valid call with n = 0 (equal batch lengths, every vector
vacuously of the store dimension), yet it does not succeed: the faiss
add wrapper raises ValueError unpacking the shape of the 1-D empty
array, so there is no post-call store whose count grew by n. -/
theorem c6_empty_add_cex :
    ([] : List (List ℚ)).length = ([] : List String).length
    ∧ (∀ v ∈ ([] : List (List ℚ)), v.length = (VectorStore.create 2 (α := String)).dim)
    ∧ VectorStore.add (VectorStore.create 2) ([] : List (List ℚ)) ([] : List String)
      = Except.error StoreError.emptyAdd := by
  refine ⟨rfl, ?_, ?_⟩
  · intro v hv
    cases hv
  · rw [VectorStore.add, if_pos rfl]

/-- C6 amended: A valid Add of n >= 1 vectors (all of the store
dimension) with n payloads succeeds, grows the vector count and the
payload count by exactly n, and each newly added payload is returned
by some subsequent Search (namely one whose top_k covers the whole
store); the empty call (n = 0) instead fails inside the index wrapper
and leaves the store unchanged, see the counterexample.  The store is
assumed consistent (equal counts) before the call, as every store
built by matching adds is. -/
theorem c6_add_count_and_searchable {α : Type} (s : VectorStore α)
    (es : List (List ℚ)) (ps : List α) (n : Nat)
    (hes : es.length = n) (hps : ps.length = n) (hn : 0 < n)
    (hdim : ∀ v ∈ es, v.length = s.dim)
    (hbal : s.payloads.length = s.vectors.length) :
    ∃ s2, VectorStore.add s es ps = Except.ok s2
      ∧ s2.vectors.length = s.vectors.length + n
      ∧ s2.payloads.length = s.payloads.length + n
      ∧ ∀ j, ∀ hj : j < n, ∃ (q : List ℚ) (k : Int) (res : List (ℚ × α)),
          VectorStore.search s2 q k = Except.ok res
          ∧ ∃ sc, (sc, ps.get ⟨j, hps ▸ hj⟩) ∈ res := by
  have hne : es ≠ [] := by
    intro h
    subst h
    simp only [List.length_nil] at hes
    omega
  refine ⟨{ s with vectors := s.vectors ++ es, payloads := s.payloads ++ ps },
    by rw [VectorStore.add, if_neg hne, if_pos hdim], by simp [hes], by simp [hps], ?_⟩
  intro j hj
  set s2 : VectorStore α :=
    { s with vectors := s.vectors ++ es, payloads := s.payloads ++ ps } with hs2
  have hq : (List.replicate s.dim (0:ℚ)).length = s2.dim := by
    simp [hs2]
  have hlenv : s2.vectors.length = s.vectors.length + n := by
    simp [hs2, hes]
  have hlenp : s2.payloads.length = s.vectors.length + n := by
    simp [hs2, hps, ← hbal]
  have hnpos : 0 < s.vectors.length + n :=
    Nat.add_pos_right _ (Nat.lt_of_le_of_lt (Nat.zero_le j) hj)
  have hk : (0:Int) < ((s.vectors.length + n : Nat) : Int) :=
    Int.natCast_pos.mpr hnpos
  have hbal2 : s2.vectors.length ≤ s2.payloads.length := by
    rw [hlenv, hlenp]
  have hktoNat : ((s.vectors.length + n : Nat) : Int).toNat = s2.vectors.length := by
    rw [Int.toNat_natCast, hlenv]
  have hjps : j < ps.length := hps ▸ hj
  have heq := search_ok_eq s2 (List.replicate s.dim 0)
    ((s.vectors.length + n : Nat) : Int) hq hk hbal2 (ps.get ⟨j, hjps⟩)
  refine ⟨List.replicate s.dim 0, ((s.vectors.length + n : Nat) : Int), _, heq, ?_⟩
  have hi : s.vectors.length + j < s2.vectors.length := by
    rw [hlenv]
    exact Nat.add_lt_add_left hj _
  have hmem : (innerProd (List.replicate s.dim 0)
        (s2.vectors.getD (s.vectors.length + j) []), s.vectors.length + j)
      ∈ rankedPairs s2 (List.replicate s.dim 0) :=
    mem_rankedPairs.mpr ⟨s.vectors.length + j, hi, rfl⟩
  have htake : (rankedPairs s2 (List.replicate s.dim 0)).take
      ((s.vectors.length + n : Nat) : Int).toNat
      = rankedPairs s2 (List.replicate s.dim 0) := by
    rw [hktoNat, ← rankedPairs_length s2 (List.replicate s.dim 0), List.take_length]
  have hpay : s2.payloads.getD (s.vectors.length + j) (ps.get ⟨j, hjps⟩)
      = ps.get ⟨j, hjps⟩ := by
    show (s.payloads ++ ps).getD (s.vectors.length + j) _ = _
    rw [List.getD_append_right _ _ _ _ (by rw [hbal]; exact Nat.le_add_right _ _)]
    have hsub : s.vectors.length + j - s.payloads.length = j := by
      rw [hbal]
      exact Nat.add_sub_cancel_left _ _
    rw [hsub, List.getD_eq_get _ _ hjps]
  refine ⟨innerProd (List.replicate s.dim 0)
    (s2.vectors.getD (s.vectors.length + j) []), ?_⟩
  have hmem2 : (innerProd (List.replicate s.dim 0)
        (s2.vectors.getD (s.vectors.length + j) []),
        s2.payloads.getD (s.vectors.length + j) (ps.get ⟨j, hjps⟩))
      ∈ ((rankedPairs s2 (List.replicate s.dim 0)).take
          ((s.vectors.length + n : Nat) : Int).toNat).map
        (fun p => (p.1, s2.payloads.getD p.2 (ps.get ⟨j, hjps⟩))) := by
    rw [htake]
    exact List.mem_map_of_mem _ hmem
  rw [hpay] at hmem2
  exact hmem2

/-- Witness for C6 amended: adding two dimension-2 vectors with two
payloads to a fresh store of dimension 2. -/
theorem c6_add_count_and_searchable_witness :
    ∃ s2, VectorStore.add (VectorStore.create 2) [[1,0],[0,1]] ["p","q"]
        = Except.ok s2
      ∧ s2.vectors.length = (VectorStore.create 2 (α := String)).vectors.length + 2
      ∧ s2.payloads.length = (VectorStore.create 2 (α := String)).payloads.length + 2
      ∧ ∀ j, ∀ hj : j < 2, ∃ (q : List ℚ) (k : Int) (res : List (ℚ × String)),
          VectorStore.search s2 q k = Except.ok res
          ∧ ∃ sc, (sc, (["p","q"] : List String).get ⟨j, hj⟩) ∈ res :=
  c6_add_count_and_searchable (VectorStore.create 2) [[1,0],[0,1]] ["p","q"] 2
    (by decide) (by decide) (by decide) (by decide) (by decide)

/-- C7: Search is deterministic: two calls with the same query and
top_k on an unchanged store return identical results. -/
theorem c7_search_deterministic {α : Type} (s : VectorStore α) (q : List ℚ)
    (k : Int) (r1 r2 : Except StoreError (List (ℚ × α)))
    (h1 : VectorStore.search s q k = r1) (h2 : VectorStore.search s q k = r2) :
    r1 = r2 :=
  h1.symm.trans h2

/-- Witness for C7 at the three-entry store: both calls produce the
list [(1,"a"),(1,"c")]. -/
theorem c7_search_deterministic_witness :
    (Except.ok [((1:ℚ),"a"),(1,"c")] : Except StoreError (List (ℚ × String)))
      = Except.ok [((1:ℚ),"a"),(1,"c")] := by
  have hs : VectorStore.search
      (⟨4, [[1,0,0,0],[0,1,0,0],[1,1,0,0]], ["a","b","c"]⟩ : VectorStore String)
      [1,0,0,0] 2 = Except.ok [((1:ℚ),"a"),(1,"c")] := by
    norm_num [VectorStore.search, rankedPairs, scoredPairs, innerProd, lookupResults,
      List.insertionSort, List.orderedInsert, rankRel,
      show List.range 3 = [0,1,2] from rfl]
  exact c7_search_deterministic _ [1,0,0,0] 2 _ _ hs hs

/-- C8: When the endpoint address or the credential is absent (unset)
or empty, embed fails with the configuration error (the RuntimeError
of embed.py line 15, the ConfigurationError of the spec taxonomy)
before attempting any network call: the trace of outbound requests is
empty. -/
theorem c8_embed_missing_config_no_network (env : EmbedEnv)
    (texts : List String) (net : EmbedRequest → EmbedResponse)
    (h : optFalsy env.embedApiUrl = true ∨ optFalsy env.embedApiKey = true) :
    embed env texts net =
      ([], Except.error (EmbedError.runtimeConfig
        "Set EMBED_API_URL and EMBED_API_KEY for embeddings.")) := by
  rcases h with h | h <;> simp [embed, h]

/-- Witness for C8 with an unset endpoint address and a set
credential. -/
theorem c8_embed_missing_config_no_network_witness :
    embed ⟨"text-embedding-3-large", none, some "sk-key"⟩ ["hello"]
        (fun _ => ⟨200, EmbedBody.withEmbeddings [[1,0]]⟩) =
      ([], Except.error (EmbedError.runtimeConfig
        "Set EMBED_API_URL and EMBED_API_KEY for embeddings.")) :=
  c8_embed_missing_config_no_network _ _ _ (Or.inl rfl)

/-- C9: On every success outcome of the remote chat call, call_llm
returns None (no mapping with the four solution fields): the
content-extraction and JSON-parsing block of app.py lines 244-283 sits
inside the HTTPStatusError handler after its unconditional raise and
is unreachable, and no statement follows the try statement, so the
function falls off the end. -/
theorem c9_call_llm_success_returns_none (d : ChatData) :
    call_llm (LlmHttpOutcome.success d) = Except.ok none :=
  rfl

theorem selectContexts_acc (m : Nat) :
    ∀ (cs : List Ctx) (acc : List String) (total : Nat),
      ∃ tail, selectContexts m cs acc total = acc.reverse ++ tail
  | [], acc, total => ⟨[], by simp [selectContexts]⟩
  | c :: cs, acc, total => by
    rw [selectContexts]
    by_cases h : total + (ctx_entry c).length > m ∧ acc ≠ []
    · rw [if_pos h]
      exact ⟨[], by simp⟩
    · rw [if_neg h]
      obtain ⟨tail, htail⟩ :=
        selectContexts_acc m cs (ctx_entry c :: acc) (total + (ctx_entry c).length)
      refine ⟨ctx_entry c :: tail, ?_⟩
      rw [htail]
      simp

theorem selectContexts_head (m : Nat) (c : Ctx) (cs : List Ctx) :
    ∃ tail, selectContexts m (c :: cs) [] 0 = ctx_entry c :: tail := by
  rw [selectContexts]
  rw [if_neg (by simp)]
  obtain ⟨tail, h⟩ := selectContexts_acc m cs [ctx_entry c] (0 + (ctx_entry c).length)
  exact ⟨tail, by rw [h]; rfl⟩

theorem joinSep_cons_exists (sep x : String) (xs : List String) :
    ∃ post, joinSep sep (x :: xs) = x ++ post := by
  cases xs with
  | nil => exact ⟨"", (String.append_empty x).symm⟩
  | cons y ys =>
    refine ⟨sep ++ joinSep sep (y :: ys), ?_⟩
    rw [joinSep, String.append_assoc]

/-- C10: For a non-empty context list the first rendered entry is
always kept — it heads the selected-entry list whatever the value of
max_context_length (in particular even when its own length already
exceeds the limit, since the break condition also requires a
previously kept entry) — and the produced prompt contains that entry
verbatim. -/
theorem c10_first_context_always_included (q : String) (c : Ctx)
    (cs : List Ctx) (m : Nat) :
    (selectContexts m (c :: cs) [] 0).head? = some (ctx_entry c)
    ∧ ∃ pre post, build_user_prompt q (c :: cs) m = pre ++ ctx_entry c ++ post := by
  obtain ⟨tail, hsel⟩ := selectContexts_head m c cs
  constructor
  · rw [hsel]
    rfl
  · obtain ⟨post1, hj⟩ := joinSep_cons_exists "\n---\n" (ctx_entry c) tail
    refine ⟨promptHeader ++ "Reference examples:\n",
      post1 ++ ("\n\n" ++ ("Question:\n" ++ q ++ "\n\n") ++ promptTail), ?_⟩
    show promptHeader ++
        ("Reference examples:\n" ++ joinSep "\n---\n" (selectContexts m (c :: cs) [] 0) ++ "\n\n") ++
        ("Question:\n" ++ q ++ "\n\n") ++ promptTail = _
    rw [hsel, hj]
    simp only [String.append_assoc]

end RGPT
